import Mathlib

/-!
Verification of the assignment grading subsystem of a course-support backend:
the resource monitor (`resource_monitor.py`), the grading queue and heuristic
grader (`assignment_grading_service.py`), and the progress/grade persistence
bridge (`progress_service.py`).

The embedding is shallow: Python methods become Lean functions with explicit
state passing (the in-memory deque becomes a `List`, the per-(student,
assignment) database row becomes an `Option Row`), effectful inputs
(timestamps, resource samples, the monitor verdict) become explicit
parameters, and fallible values become `Option`.
-/

namespace GradingSystem

/-- JSON values as produced by the Python payload dictionaries: `null`,
booleans, integers, strings, arrays, and objects with insertion-ordered
string keys. -/
inductive JValue where
  | null : JValue
  | boolean : Bool → JValue
  | int : Int → JValue
  | str : String → JValue
  | arr : List JValue → JValue
  | obj : List (String × JValue) → JValue
deriving Repr

/-- Lower-case hexadecimal digit, as used by Python's json \uXXXX escapes. -/
def hexDigit (n : Nat) : Char :=
  if n < 10 then Char.ofNat (48 + n) else Char.ofNat (87 + n)

/-- Four-digit lower-case hexadecimal rendering of a code point. -/
def hex4 (n : Nat) : String :=
  String.mk [hexDigit (n / 4096 % 16), hexDigit (n / 256 % 16),
             hexDigit (n / 16 % 16), hexDigit (n % 16)]

/-- Escaping of one character inside a JSON string, following Python's
json encoder with ensure_ascii=False: only the quote, the backslash and
control characters below 0x20 are escaped; everything else (including
non-ASCII) passes through unchanged. -/
def pyJsonEscapeChar (c : Char) : String :=
  if c = '"' then "\\\""
  else if c = '\\' then "\\\\"
  else if c = '\n' then "\\n"
  else if c = '\r' then "\\r"
  else if c = '\t' then "\\t"
  else if c = Char.ofNat 8 then "\\b"
  else if c = Char.ofNat 12 then "\\f"
  else if c.toNat < 32 then "\\u" ++ hex4 c.toNat
  else String.singleton c

/-- JSON string literal with Python's escaping. -/
def encodeString (s : String) : String :=
  "\"" ++ String.join (s.data.map pyJsonEscapeChar) ++ "\""

mutual

/-- Embedding of Python json.dumps(submission, ensure_ascii=False) with the
default separators: items joined by a comma and a space, keys and values
joined by a colon and a space. -/
def dumps : JValue → String
  | .null => "null"
  | .boolean b => if b then "true" else "false"
  | .int n => toString n
  | .str s => encodeString s
  | .arr xs => "[" ++ dumpsList xs ++ "]"
  | .obj fields => "\x7b" ++ dumpsFields fields ++ "\x7d"

/-- Comma-and-space separated rendering of array elements. -/
def dumpsList : List JValue → String
  | [] => ""
  | [x] => dumps x
  | x :: y :: rest => dumps x ++ ", " ++ dumpsList (y :: rest)

/-- Comma-and-space separated rendering of the key-value pairs of an
object, each pair joined by a colon and a space. -/
def dumpsFields : List (String × JValue) → String
  | [] => ""
  | [(k, v)] => encodeString k ++ ": " ++ dumps v
  | (k, v) :: p :: rest => encodeString k ++ ": " ++ dumps v ++ ", " ++ dumpsFields (p :: rest)

end

/-- Score mapping of AssignmentGradingService._grade as a function of the
serialized character length (lines 67-77): guard for a non-positive length,
two floor-division bands, the 100 plateau, and the final clamp min(score,
100). Python computes the bands as int(60 * (length / 500)) and
60 + int(30 * ((length - 500) / 1000)) in double-precision floats; for
every length those expressions round to exactly the floor-division values
used here (the float error never crosses an integer boundary in the bands'
ranges), so Nat floor division is a faithful embedding. -/
def gradeScoreOfLength (length : Nat) : Nat :=
  if length ≤ 0 then 0
  else
    let score :=
      if length < 500 then 60 * length / 500
      else if length < 1500 then 60 + 30 * (length - 500) / 1000
      else 100
    min score 100

/-- Embedding of AssignmentGradingService._grade: serialize the submission,
measure its character length, and map the length to a score and a feedback
string. -/
def grade (submission : JValue) : Nat × String :=
  let text := dumps submission
  let length := text.length
  if length ≤ 0 then (0, "No submission content found.")
  else (gradeScoreOfLength length,
        s!"Auto-graded based on submission length ({length} chars).")

/-- The score formula exactly as the specification words it (its piecewise
floor formula, with no clamp): used to compare the code's score mapping
against the spec. -/
def specScoreOfLength (length : Nat) : Nat :=
  if length ≤ 0 then 0
  else if length < 500 then 60 * length / 500
  else if length < 1500 then 60 + 30 * (length - 500) / 1000
  else 100

/-- Embedding of ResourceMonitor.is_overloaded. The live psutil sampling is
an effectful input: `sample` is `some (cpu, mem)` when both utilization
fractions were read successfully and `none` when any exception occurred
while sampling. On a successful sample the monitor reports overload exactly
when both fractions meet or exceed the configured limit; on a sampling
error it fails open (not overloaded). -/
def is_overloaded (limit : ℚ) (sample : Option (ℚ × ℚ)) : Bool :=
  match sample with
  | some s => decide (s.1 ≥ limit) && decide (s.2 ≥ limit)
  | none => false

/-- One entry of AssignmentGradingService.queue, as built in enqueue
(lines 25-31). -/
structure QueueItem where
  email : String
  assignment_id : Nat
  submission : JValue
  submission_path : String
  queued_at : String
deriving Repr

/-- The graded dictionary built by process_next (lines 49-56). -/
structure GradedResult where
  email : String
  assignment_id : Nat
  score : Nat
  feedback : String
  graded_at : String
  submission_path : String
deriving Repr, DecidableEq

/-- The dictionary returned by enqueue (lines 34-38). -/
structure EnqueueReturn where
  queued : Nat
  processed : Bool
  result : Option GradedResult
deriving Repr, DecidableEq

/-- Embedding of AssignmentGradingService.process_next. The deque becomes
an explicit list (head = oldest); the monitor verdict for this call and
the grading timestamp are explicit inputs; the method's mutation of
self.queue becomes the returned list. The monitor is consulted only when
the queue is non-empty, and an overloaded verdict leaves the queue
untouched. -/
def process_next (overloaded : Bool) (now : String) (q : List QueueItem) :
    Option GradedResult × List QueueItem :=
  match q with
  | [] => (none, q)
  | item :: rest =>
    if overloaded then (none, q)
    else
      (some { email := item.email
              assignment_id := item.assignment_id
              score := (grade item.submission).1
              feedback := (grade item.submission).2
              graded_at := now
              submission_path := item.submission_path }, rest)

/-- Embedding of AssignmentGradingService.enqueue: append the new item at
the tail, attempt one drain, and report the queue depth as observed after
that attempted drain (len(self.queue) is read after process_next has run),
whether an item was processed, and the grading result if any. -/
def enqueue (overloaded : Bool) (queued_at now : String) (q : List QueueItem)
    (email : String) (assignment_id : Nat) (submission : JValue)
    (submission_path : String) : EnqueueReturn × List QueueItem :=
  let item : QueueItem :=
    { email := email, assignment_id := assignment_id, submission := submission,
      submission_path := submission_path, queued_at := queued_at }
  let q1 := q ++ [item]
  let r := process_next overloaded now q1
  ({ queued := r.2.length, processed := r.1.isSome, result := r.1 }, r.2)

/-- One assignment_submissions row for a fixed (student_email,
assignment_id) pair; nullable columns are Options. The stored status
string is whatever the writers put there. -/
structure Row where
  status : String
  score : Option Nat
  feedback : Option String
  submitted_at : Option String
  graded_at : Option String
  submission_path : Option String
deriving Repr, DecidableEq

/-- Embedding of ProgressService._persist_grade restricted to the row the
UPDATE's WHERE clause matches (`none` = no such row, and the UPDATE is a
no-op). Sets status to completed, overwrites score, feedback and graded_at
from the result, and COALESCEs submission_path (keeps an existing path,
otherwise takes the result's). -/
def persist_grade (result : GradedResult) (db : Option Row) : Option Row :=
  db.map fun r =>
    { r with status := "completed"
             score := some result.score
             feedback := some result.feedback
             graded_at := some result.graded_at
             submission_path := some (r.submission_path.getD result.submission_path) }

/-- Python truthiness of the Optional[Dict] submission argument: None and
the empty dict are falsy; a non-empty dict is truthy. -/
def dictTruthy (submission : Option (List (String × JValue))) : Bool :=
  match submission with
  | none => false
  | some fields => !fields.isEmpty

/-- Embedding of AssignmentGradingService.save_submission reduced to the
path it returns: submissions_dir / email with @ replaced by _at_ /
assignment-{id}-{timestamp}.json. The filesystem write is an external
effect; only the returned path matters to the callers modelled here. -/
def save_submission_path (dir email : String) (assignment_id : Nat) (ts : String) : String :=
  dir ++ "/" ++ (email.replace "@" "_at_") ++ "/assignment-" ++ toString assignment_id
      ++ "-" ++ ts ++ ".json"

/-- The dictionary returned by ProgressService.submit_assignment. -/
structure SubmitResponse where
  status : String
  assignment_id : Nat
  grading : Option EnqueueReturn
deriving Repr, DecidableEq

/-- Embedding of ProgressService.submit_assignment, tracking the row of the
(email, assignment_id) pair being submitted together with the grading
queue. `overloaded` is the monitor verdict for the enqueue's drain attempt,
`dir` the submissions directory, `ts` the save/enqueue timestamp and `now`
the grading timestamp. Faithful points: the payload checks are Python
truthiness (an empty dict behaves like None); the dedicated path UPDATE
overwrites submission_path unconditionally; the grade is persisted only
when the enqueue returned a result, and _persist_grade's WHERE clause only
touches this row when the result's identifiers match this pair (a drained
older item may belong to another pair). -/
def submit_assignment (overloaded : Bool) (dir ts now : String)
    (email : String) (assignment_id : Nat) (status : String)
    (submission : Option (List (String × JValue)))
    (db : Option Row) (q : List QueueItem) :
    SubmitResponse × Option Row × List QueueItem :=
  let submission_path : Option String :=
    if dictTruthy submission then some (save_submission_path dir email assignment_id ts)
    else none
  let db1 : Option Row :=
    match db with
    | none => some { status := status, score := none, feedback := none,
                     submitted_at := some now, graded_at := none, submission_path := none }
    | some r => some { r with status := status, submitted_at := some now }
  let db2 : Option Row :=
    match submission_path with
    | none => db1
    | some p => db1.map fun r => { r with submission_path := some p }
  if dictTruthy submission then
    let er := enqueue overloaded ts now q email assignment_id
      (JValue.obj (submission.getD []))
      (save_submission_path dir email assignment_id ts)
    let db3 : Option Row :=
      match er.1.result with
      | some res =>
        if res.email = email ∧ res.assignment_id = assignment_id then persist_grade res db2
        else db2
      | none => db2
    ({ status := status, assignment_id := assignment_id, grading := some er.1 }, db3, er.2)
  else
    ({ status := status, assignment_id := assignment_id, grading := none }, db2, q)

/-- One transition of the assignment-submission row of a fixed (student,
assignment) pair under the public operations: a submit_assignment call for
that pair (with arbitrary monitor verdict, timestamps, status, payload and
queue state), or a direct _persist_grade call whose result targets that
pair (the manual process_next-then-persist path). -/
inductive RowStep : Option Row → Option Row → Prop where
  | submit (overloaded : Bool) (dir ts now email : String) (assignment_id : Nat)
      (status : String) (submission : Option (List (String × JValue)))
      (q : List QueueItem) (db : Option Row) :
      RowStep db (submit_assignment overloaded dir ts now email assignment_id status
        submission db q).2.1
  | persist (res : GradedResult) (db : Option Row) :
      RowStep db (persist_grade res db)

/-- Row states reachable from the initial no-row state under RowStep. -/
inductive RowReachable : Option Row → Prop where
  | init : RowReachable none
  | step {db db' : Option Row} : RowReachable db → RowStep db db' → RowReachable db'

lemma gradeScore_eq_spec (L : Nat) : gradeScoreOfLength L = specScoreOfLength L := by
  unfold gradeScoreOfLength specScoreOfLength
  by_cases h0 : L ≤ 0
  · simp [h0]
  · by_cases h1 : L < 500
    · have hb : 60 * L / 500 ≤ 60 * 499 / 500 := Nat.div_le_div_right (by omega)
      norm_num at hb
      simp only [h0, if_false, h1, if_true]
      omega
    · by_cases h2 : L < 1500
      · have hb : 30 * (L - 500) / 1000 ≤ 30 * 999 / 1000 :=
          Nat.div_le_div_right (by omega)
        norm_num at hb
        simp only [h0, if_false, h1, h2, if_true]
        omega
      · simp [h0, h1, h2]

lemma spec_band1_le (L : Nat) (h : L < 500) : specScoreOfLength L ≤ 59 := by
  unfold specScoreOfLength
  have hb : 60 * L / 500 ≤ 60 * 499 / 500 := Nat.div_le_div_right (by omega)
  norm_num at hb
  by_cases h0 : L ≤ 0
  · simp [h0]
  · simp only [h0, if_false, h, if_true]
    omega

lemma spec_band2 (L : Nat) (h1 : 500 ≤ L) (h2 : L < 1500) :
    specScoreOfLength L = 60 + 30 * (L - 500) / 1000 ∧
    60 ≤ specScoreOfLength L ∧ specScoreOfLength L ≤ 89 := by
  unfold specScoreOfLength
  have hb : 30 * (L - 500) / 1000 ≤ 30 * 999 / 1000 := Nat.div_le_div_right (by omega)
  norm_num at hb
  have h0 : ¬ L ≤ 0 := by omega
  have h1' : ¬ L < 500 := by omega
  simp only [h0, if_false, h1', h2, if_true]
  exact ⟨trivial, by omega, by omega⟩

lemma spec_high (L : Nat) (h : 1500 ≤ L) : specScoreOfLength L = 100 := by
  unfold specScoreOfLength
  have h0 : ¬ L ≤ 0 := by omega
  have h1 : ¬ L < 500 := by omega
  have h2 : ¬ L < 1500 := by omega
  simp [h0, h1, h2]

lemma spec_le_100 (L : Nat) : specScoreOfLength L ≤ 100 := by
  by_cases h1 : L < 500
  · exact le_trans (spec_band1_le L h1) (by norm_num)
  · by_cases h2 : L < 1500
    · exact le_trans (spec_band2 L (by omega) h2).2.2 (by norm_num)
    · rw [spec_high L (by omega)]

lemma spec_mono {L1 L2 : Nat} (h : L1 ≤ L2) :
    specScoreOfLength L1 ≤ specScoreOfLength L2 := by
  by_cases hb2 : L2 < 500
  · by_cases h0 : L1 ≤ 0
    · have : L1 = 0 := by omega
      subst this
      simp [specScoreOfLength]
    · have hb1 : L1 < 500 := by omega
      unfold specScoreOfLength
      have h0' : ¬ L2 ≤ 0 := by omega
      simp only [h0, h0', if_false, hb1, hb2, if_true]
      exact Nat.div_le_div_right (by omega)
  · by_cases hc2 : L2 < 1500
    · by_cases hb1 : L1 < 500
      · exact le_trans (spec_band1_le L1 hb1)
          (le_trans (by norm_num) (spec_band2 L2 (by omega) hc2).2.1)
      · have e1 := spec_band2 L1 (by omega) (by omega)
        have e2 := spec_band2 L2 (by omega) hc2
        rw [e1.1, e2.1]
        have : 30 * (L1 - 500) / 1000 ≤ 30 * (L2 - 500) / 1000 :=
          Nat.div_le_div_right (by omega)
        omega
    · rw [spec_high L2 (by omega)]
      exact spec_le_100 L1

lemma grade_fst_eq (submission : JValue) :
    (grade submission).1 = specScoreOfLength (dumps submission).length := by
  unfold grade
  by_cases h0 : (dumps submission).length ≤ 0
  · have : (dumps submission).length = 0 := by omega
    simp [h0, this, specScoreOfLength]
  · simp [h0, gradeScore_eq_spec]

lemma spec_gap (L : Nat) : specScoreOfLength L ≤ 89 ∨ specScoreOfLength L = 100 := by
  by_cases h1 : L < 500
  · exact Or.inl (le_trans (spec_band1_le L h1) (by norm_num))
  · by_cases h2 : L < 1500
    · exact Or.inl (spec_band2 L (by omega) h2).2.2
    · exact Or.inr (spec_high L (by omega))

/-- C1: for every submission payload the grader maps the character length of
the serialized payload to a score by the exact piecewise floor formula of
the specification (length 0 scores 0; below 500 it is floor(60*L/500);
from 500 up to 1499 it is 60 + floor(30*(L-500)/1000); from 1500 on it is
100), and the breakpoints evaluate to 59, 60, 89 and 100 at lengths 499,
500, 1499 and 1500. -/
theorem grader_piecewise_formula :
    (∀ submission : JValue,
      (grade submission).1 = specScoreOfLength (dumps submission).length) ∧
    (∀ L : Nat, gradeScoreOfLength L = specScoreOfLength L) ∧
    gradeScoreOfLength 499 = 59 ∧ gradeScoreOfLength 500 = 60 ∧
    gradeScoreOfLength 1499 = 89 ∧ gradeScoreOfLength 1500 = 100 := by
  refine ⟨grade_fst_eq, gradeScore_eq_spec, by decide, by decide, by decide, by decide⟩

/-- C8: the grader's score mapping is monotonically non-decreasing in the
serialized length, and every score lies in [0, 100] (both as a function of
the length and for every concrete payload). -/
theorem grader_monotone_and_bounded :
    (∀ L1 L2 : Nat, L1 ≤ L2 → gradeScoreOfLength L1 ≤ gradeScoreOfLength L2) ∧
    (∀ L : Nat, gradeScoreOfLength L ≤ 100) ∧
    (∀ submission : JValue, (grade submission).1 ≤ 100) := by
  refine ⟨fun L1 L2 h => ?_, fun L => ?_, fun s => ?_⟩
  · rw [gradeScore_eq_spec, gradeScore_eq_spec]
    exact spec_mono h
  · rw [gradeScore_eq_spec]
    exact spec_le_100 L
  · rw [grade_fst_eq]
    exact spec_le_100 _

/-- Witness for C8 at the concrete lengths 3 and 700. -/
theorem grader_monotone_and_bounded_witness :
    (3 : Nat) ≤ 700 ∧ gradeScoreOfLength 3 ≤ gradeScoreOfLength 700 :=
  ⟨by decide, grader_monotone_and_bounded.1 3 700 (by decide)⟩

/-- C10: the grader's score is never in 90..99: for every payload the score
is at most 89 or exactly 100, and the attainable scores of the length-to-
score mapping are exactly 0..89 together with 100. -/
theorem grader_score_gap :
    (∀ submission : JValue,
      ¬ (90 ≤ (grade submission).1 ∧ (grade submission).1 ≤ 99)) ∧
    (∀ L : Nat, gradeScoreOfLength L ≤ 89 ∨ gradeScoreOfLength L = 100) ∧
    (∀ s : Nat, (∃ L, gradeScoreOfLength L = s) ↔ (s ≤ 89 ∨ s = 100)) := by
  have hgap : ∀ L : Nat, gradeScoreOfLength L ≤ 89 ∨ gradeScoreOfLength L = 100 := by
    intro L
    rw [gradeScore_eq_spec]
    exact spec_gap L
  refine ⟨fun s h => ?_, hgap, fun s => ⟨fun hex => ?_, fun hs => ?_⟩⟩
  · rw [grade_fst_eq] at h
    rcases spec_gap (dumps s).length with hle | h100 <;> omega
  · obtain ⟨L, hL⟩ := hex
    rcases hgap L with hle | h100 <;> omega
  · have hlt : s < 101 := by omega
    have key : ∀ s : Nat, s < 101 → (s ≤ 89 ∨ s = 100) →
        gradeScoreOfLength
          (if s = 0 then 0
           else if s ≤ 59 then (25 * s + 2) / 3
           else if s ≤ 89 then 500 + (100 * (s - 60) + 2) / 3
           else 1500) = s := by decide
    exact ⟨_, key s hlt hs⟩

/-- Witness for C10: score 42 is attainable and the empty payload's score
is outside 90..99. -/
theorem grader_score_gap_witness :
    (∃ L, gradeScoreOfLength L = 42) ∧
    ¬ (90 ≤ (grade (JValue.obj [])).1 ∧ (grade (JValue.obj [])).1 ≤ 99) :=
  ⟨(grader_score_gap.2.2 42).mpr (Or.inl (by decide)),
   grader_score_gap.1 (JValue.obj [])⟩

/-- C6: on a successful sample the monitor reports overload exactly when
both the CPU and the memory fraction meet or exceed the configured limit
(so if either is below the limit it reports not overloaded), and on any
sampling error it reports not overloaded, so grading is never blocked by a
monitoring failure. -/
theorem monitor_requires_both_and_fails_open :
    (∀ limit cpu mem : ℚ,
      is_overloaded limit (some (cpu, mem)) = true ↔ (limit ≤ cpu ∧ limit ≤ mem)) ∧
    (∀ limit cpu mem : ℚ, cpu < limit ∨ mem < limit →
      is_overloaded limit (some (cpu, mem)) = false) ∧
    (∀ limit : ℚ, is_overloaded limit none = false) := by
  refine ⟨fun limit cpu mem => ?_, fun limit cpu mem h => ?_, fun limit => rfl⟩
  · simp [is_overloaded, ge_iff_le]
  · simp only [is_overloaded, Bool.and_eq_false_iff, decide_eq_false_iff_not, not_le,
      ge_iff_le]
    rcases h with h | h
    · exact Or.inl h
    · exact Or.inr h

/-- Witness for C6: limit 1/5, CPU at 3/10 but memory at 1/10 is not
overloaded, and a failed sample is not overloaded. -/
theorem monitor_requires_both_and_fails_open_witness :
    ((1:ℚ)/10 < 1/5 ∨ True) ∧
    is_overloaded ((1:ℚ)/5) (some (3/10, 1/10)) = false ∧
    is_overloaded ((1:ℚ)/5) none = false :=
  ⟨Or.inl (by norm_num),
   monitor_requires_both_and_fails_open.2.1 (1/5) (3/10) (1/10) (Or.inr (by norm_num)),
   monitor_requires_both_and_fails_open.2.2 (1/5)⟩

/-- C3: when the monitor reports overloaded, process_next on a non-empty
queue returns none and leaves the queue completely unchanged, and an
enqueue under an overloaded monitor returns processed = false, result =
none and a depth of the previous depth plus one, with the queue now the old
queue plus the new item at the tail. -/
theorem overloaded_drain_leaves_queue_unchanged :
    (∀ (now : String) (q : List QueueItem), q ≠ [] →
      process_next true now q = (none, q)) ∧
    (∀ (queued_at now : String) (q : List QueueItem) (email : String)
       (assignment_id : Nat) (submission : JValue) (path : String),
      (enqueue true queued_at now q email assignment_id submission path).1.processed
          = false ∧
      (enqueue true queued_at now q email assignment_id submission path).1.result
          = none ∧
      (enqueue true queued_at now q email assignment_id submission path).1.queued
          = q.length + 1 ∧
      (enqueue true queued_at now q email assignment_id submission path).2 =
        q ++ [{ email := email, assignment_id := assignment_id,
                submission := submission, submission_path := path,
                queued_at := queued_at }]) := by
  constructor
  · intro now q hq
    cases q with
    | nil => exact absurd rfl hq
    | cons a l => simp [process_next]
  · intro queued_at now q email assignment_id submission path
    cases q with
    | nil => simp [enqueue, process_next]
    | cons a l => simp [enqueue, process_next]

/-- Witness for C3 at a concrete one-item queue. -/
theorem overloaded_drain_leaves_queue_unchanged_witness :
    process_next true "t"
      [{ email := "a@b", assignment_id := 1, submission := JValue.obj [],
         submission_path := "p", queued_at := "t0" }] =
    (none,
     [{ email := "a@b", assignment_id := 1, submission := JValue.obj [],
        submission_path := "p", queued_at := "t0" }]) :=
  overloaded_drain_leaves_queue_unchanged.1 "t" _ (by simp)

/-- C2 is refuted: the claim says the returned queued field always equals
the pre-call depth plus one, but when the drain processes the item the
code reads len(self.queue) after the drain: enqueue on an empty queue with
a non-overloaded monitor processes the new item and returns queued = 0,
not 0 + 1 = 1. -/
theorem enqueue_queued_counterexample :
    (enqueue false "t0" "t1" [] "s@x" 1 (JValue.obj []) "p").1.queued = 0 ∧
    (enqueue false "t0" "t1" [] "s@x" 1 (JValue.obj []) "p").1.processed = true ∧
    ¬ (enqueue false "t0" "t1" [] "s@x" 1 (JValue.obj []) "p").1.queued =
        ([] : List QueueItem).length + 1 := by
  refine ⟨?_, ?_, ?_⟩ <;> simp [enqueue, process_next]

/-- C2 as amended: the queued field equals the queue depth observed after
the attempted drain — the pre-call depth plus one when no item was
processed, and exactly the pre-call depth when the drain processed an
item. -/
theorem enqueue_queued_is_depth_after_drain :
    ∀ (overloaded : Bool) (queued_at now : String) (q : List QueueItem)
      (email : String) (assignment_id : Nat) (submission : JValue) (path : String),
      (enqueue overloaded queued_at now q email assignment_id submission path).1.queued =
        (enqueue overloaded queued_at now q email assignment_id submission path).2.length ∧
      (enqueue overloaded queued_at now q email assignment_id submission path).1.queued =
        (if (enqueue overloaded queued_at now q email assignment_id
              submission path).1.processed
         then q.length else q.length + 1) := by
  intro overloaded queued_at now q email assignment_id submission path
  cases overloaded with
  | false =>
    cases q with
    | nil => simp [enqueue, process_next]
    | cons a l => simp [enqueue, process_next]
  | true =>
    cases q with
    | nil => simp [enqueue, process_next]
    | cons a l => simp [enqueue, process_next]

/-- C7: the queue is FIFO: enqueueing A then B while the monitor is
overloaded, then draining while it is not overloaded, grades A (built from
A's data, graded at the drain's timestamp) and removes exactly one item,
leaving exactly B's item queued. -/
theorem queue_fifo_order :
    ∀ (eA : String) (aA : Nat) (sA : JValue) (pA tA : String)
      (eB : String) (aB : Nat) (sB : JValue) (pB tB now : String),
      process_next false now
        (enqueue true tB tB (enqueue true tA tA [] eA aA sA pA).2 eB aB sB pB).2 =
      (some { email := eA, assignment_id := aA, score := (grade sA).1,
              feedback := (grade sA).2, graded_at := now, submission_path := pA },
       [{ email := eB, assignment_id := aB, submission := sB,
          submission_path := pB, queued_at := tB }]) := by
  intro eA aA sA pA tA eB aB sB pB tB now
  simp [enqueue, process_next]

/-- C9: the grade-apply step is idempotent — applying _persist_grade twice
with the same result yields the same row as applying it once — and the
submission_path column is first-write-wins: an already-set path is kept,
an unset path is filled from the result. -/
theorem persist_grade_idempotent :
    (∀ (res : GradedResult) (db : Option Row),
      persist_grade res (persist_grade res db) = persist_grade res db) ∧
    (∀ (res : GradedResult) (r : Row) (p : String), r.submission_path = some p →
      ∃ r2 : Row, persist_grade res (some r) = some r2 ∧
        r2.submission_path = some p ∧ r2.status = "completed" ∧
        r2.score = some res.score ∧ r2.feedback = some res.feedback ∧
        r2.graded_at = some res.graded_at) ∧
    (∀ (res : GradedResult) (r : Row), r.submission_path = none →
      ∃ r2 : Row, persist_grade res (some r) = some r2 ∧
        r2.submission_path = some res.submission_path) := by
  refine ⟨fun res db => ?_, fun res r p hp => ?_, fun res r hp => ?_⟩
  · cases db with
    | none => rfl
    | some r => simp [persist_grade]
  · exact ⟨_, rfl, by simp [persist_grade, hp], rfl, rfl, rfl, rfl⟩
  · exact ⟨_, rfl, by simp [persist_grade, hp]⟩

/-- Witness for C9 at a concrete result and concrete rows with the path
set and unset. -/
theorem persist_grade_idempotent_witness :
    (some "p0" : Option String) = some "p0" ∧
    (none : Option String) = none ∧
    (∃ r2 : Row,
      persist_grade { email := "a@b", assignment_id := 1, score := 42,
                      feedback := "fb", graded_at := "t2", submission_path := "pR" }
        (some { status := "submitted", score := none, feedback := none,
                submitted_at := some "t1", graded_at := none,
                submission_path := some "p0" }) = some r2 ∧
      r2.submission_path = some "p0" ∧ r2.status = "completed" ∧
      r2.score = some 42 ∧ r2.feedback = some "fb" ∧ r2.graded_at = some "t2") ∧
    (∃ r2 : Row,
      persist_grade { email := "a@b", assignment_id := 1, score := 42,
                      feedback := "fb", graded_at := "t2", submission_path := "pR" }
        (some { status := "submitted", score := none, feedback := none,
                submitted_at := some "t1", graded_at := none,
                submission_path := none }) = some r2 ∧
      r2.submission_path = some "pR") :=
  ⟨rfl, rfl,
   persist_grade_idempotent.2.1
     { email := "a@b", assignment_id := 1, score := 42, feedback := "fb",
       graded_at := "t2", submission_path := "pR" }
     { status := "submitted", score := none, feedback := none,
       submitted_at := some "t1", graded_at := none, submission_path := some "p0" }
     "p0" rfl,
   persist_grade_idempotent.2.2
     { email := "a@b", assignment_id := 1, score := 42, feedback := "fb",
       graded_at := "t2", submission_path := "pR" }
     { status := "submitted", score := none, feedback := none,
       submitted_at := some "t1", graded_at := none, submission_path := none }
     rfl⟩

/-- C4 is refuted: submit_assignment with the empty payload (a dict that is
supplied but empty) does not trigger grading even when the monitor allows
processing — Python truthiness treats the empty dict like an absent
payload, so no grading result is produced, nothing is enqueued, and the
row stays at the submitted status with no score. -/
theorem empty_payload_counterexample :
    (submit_assignment false "d" "t0" "t1" "s@x" 1 "submitted" (some [])
        none []).1.grading = none ∧
    (submit_assignment false "d" "t0" "t1" "s@x" 1 "submitted" (some [])
        none []).2.2 = [] ∧
    (submit_assignment false "d" "t0" "t1" "s@x" 1 "submitted" (some [])
        none []).2.1 =
      some { status := "submitted", score := none, feedback := none,
             submitted_at := some "t1", graded_at := none,
             submission_path := none } := by
  refine ⟨?_, ?_, ?_⟩ <;> simp [submit_assignment, dictTruthy]

/-- C4 as amended: submitting the empty payload skips grading entirely (the
empty dict is treated like an absent payload and the queue is untouched),
while the grader itself maps the empty payload's serialization, which is
exactly the two characters of an empty JSON object, to score
floor(60*2/500) = 0. -/
theorem empty_payload_skips_grading :
    (∀ (overloaded : Bool) (dir ts now email : String) (assignment_id : Nat)
       (status : String) (db : Option Row) (q : List QueueItem),
      (submit_assignment overloaded dir ts now email assignment_id status
          (some []) db q).1.grading = none ∧
      (submit_assignment overloaded dir ts now email assignment_id status
          (some []) db q).2.2 = q) ∧
    dumps (JValue.obj []) = "\x7b\x7d" ∧
    (dumps (JValue.obj [])).length = 2 ∧
    (grade (JValue.obj [])).1 = 0 ∧
    gradeScoreOfLength 2 = 0 := by
  have hdumps : dumps (JValue.obj []) = "\x7b\x7d" := by simp [dumps, dumpsFields]
  have hlen : (dumps (JValue.obj [])).length = 2 := by
    rw [hdumps]
    decide
  refine ⟨fun overloaded dir ts now email assignment_id status db q => ⟨?_, ?_⟩,
    hdumps, hlen, ?_, by decide⟩
  · simp [submit_assignment, dictTruthy]
  · simp [submit_assignment, dictTruthy]
  · rw [grade_fst_eq, hlen]
    decide

lemma persist_grade_together (res : GradedResult) (db : Option Row) :
    ∀ r : Row, persist_grade res db = some r →
      ((r.score.isSome ↔ r.feedback.isSome) ∧ (r.score.isSome ↔ r.graded_at.isSome)) := by
  intro r hr
  cases db with
  | none => simp [persist_grade] at hr
  | some r0 =>
    simp only [persist_grade, Option.map_some', Option.some.injEq] at hr
    subst hr
    simp

lemma submit_preserves_together
    (overloaded : Bool) (dir ts now email : String) (assignment_id : Nat)
    (status : String) (submission : Option (List (String × JValue)))
    (db : Option Row) (q : List QueueItem)
    (ih : ∀ r : Row, db = some r →
      ((r.score.isSome ↔ r.feedback.isSome) ∧ (r.score.isSome ↔ r.graded_at.isSome))) :
    ∀ r : Row,
      (submit_assignment overloaded dir ts now email assignment_id status
        submission db q).2.1 = some r →
      ((r.score.isSome ↔ r.feedback.isSome) ∧ (r.score.isSome ↔ r.graded_at.isSome)) := by
  intro r hr
  unfold submit_assignment at hr
  by_cases ht : dictTruthy submission
  · simp only [ht, if_true] at hr
    cases db with
    | none =>
      split at hr
      · split at hr
        · exact persist_grade_together _ _ r hr
        · simp only [Option.map_some', Option.some.injEq] at hr
          subst hr
          simp
      · simp only [Option.map_some', Option.some.injEq] at hr
        subst hr
        simp
    | some r0 =>
      split at hr
      · split at hr
        · exact persist_grade_together _ _ r hr
        · simp only [Option.map_some', Option.some.injEq] at hr
          subst hr
          simpa using ih r0 rfl
      · simp only [Option.map_some', Option.some.injEq] at hr
        subst hr
        simpa using ih r0 rfl
  · simp only [ht, Bool.false_eq_true, if_false] at hr
    cases db with
    | none =>
      simp only [Option.some.injEq] at hr
      subst hr
      simp
    | some r0 =>
      simp only [Option.some.injEq] at hr
      subst hr
      simpa using ih r0 rfl

/-- C5 is refuted: the public submit operation takes the stored status as a
caller-supplied argument, so a status-only submit with status completed
reaches a row whose status is completed while no grading result was ever
persisted (score, feedback and graded_at are all null). -/
theorem completed_without_grade_counterexample :
    RowReachable (some { status := "completed", score := none, feedback := none,
                         submitted_at := some "t1", graded_at := none,
                         submission_path := none }) ∧
    ({ status := "completed", score := none, feedback := none,
       submitted_at := some "t1", graded_at := none,
       submission_path := none } : Row).status = "completed" ∧
    ({ status := "completed", score := none, feedback := none,
       submitted_at := some "t1", graded_at := none,
       submission_path := none } : Row).score = none ∧
    ({ status := "completed", score := none, feedback := none,
       submitted_at := some "t1", graded_at := none,
       submission_path := none } : Row).graded_at = none := by
  refine ⟨?_, rfl, rfl, rfl⟩
  have h := RowReachable.step RowReachable.init
    (RowStep.submit false "d" "t0" "t1" "a@b" 1 "completed" none [] none)
  have h2 : (submit_assignment false "d" "t0" "t1" "a@b" 1 "completed" none
      none []).2.1 =
      some { status := "completed", score := none, feedback := none,
             submitted_at := some "t1", graded_at := none,
             submission_path := none } := by
    simp [submit_assignment, dictTruthy]
  rw [h2] at h
  exact h

/-- C5 as amended: on every reachable row, score, feedback and graded_at are
set together (all three or none of them), they are only ever written by the
grade-persist step, which writes all three and the completed status in one
update; the claimed biconditional between the completed status and a
persisted grade does not hold, since submit can store a caller-supplied
completed status without grading. -/
theorem graded_fields_set_together :
    (∀ db : Option Row, RowReachable db → ∀ r : Row, db = some r →
      ((r.score.isSome ↔ r.feedback.isSome) ∧ (r.score.isSome ↔ r.graded_at.isSome))) ∧
    (∀ (res : GradedResult) (r : Row),
      ∃ r2 : Row, persist_grade res (some r) = some r2 ∧ r2.status = "completed" ∧
        r2.score = some res.score ∧ r2.feedback = some res.feedback ∧
        r2.graded_at = some res.graded_at) := by
  constructor
  · intro db hreach
    induction hreach with
    | init => intro r hr; simp at hr
    | step hprev hstep ih =>
      cases hstep with
      | submit overloaded dir ts now email assignment_id status submission q =>
        exact submit_preserves_together overloaded dir ts now email assignment_id
          status submission _ q ih
      | persist res => exact persist_grade_together res _
  · intro res r
    exact ⟨_, rfl, rfl, rfl, rfl, rfl⟩

/-- Witness for C5 as amended, at the concrete row reached by one plain
submitted-status submit with no payload. -/
theorem graded_fields_set_together_witness :
    ((({ status := "submitted", score := none, feedback := none,
         submitted_at := some "t1", graded_at := none,
         submission_path := none } : Row).score.isSome ↔
      ({ status := "submitted", score := none, feedback := none,
         submitted_at := some "t1", graded_at := none,
         submission_path := none } : Row).feedback.isSome) ∧
     (({ status := "submitted", score := none, feedback := none,
         submitted_at := some "t1", graded_at := none,
         submission_path := none } : Row).score.isSome ↔
      ({ status := "submitted", score := none, feedback := none,
         submitted_at := some "t1", graded_at := none,
         submission_path := none } : Row).graded_at.isSome)) := by
  have h := RowReachable.step RowReachable.init
    (RowStep.submit false "d" "t0" "t1" "a@b" 1 "submitted" none [] none)
  have h2 : (submit_assignment false "d" "t0" "t1" "a@b" 1 "submitted" none
      none []).2.1 =
      some { status := "submitted", score := none, feedback := none,
             submitted_at := some "t1", graded_at := none,
             submission_path := none } := by
    simp [submit_assignment, dictTruthy]
  rw [h2] at h
  exact graded_fields_set_together.1 _ h _ rfl

end GradingSystem
